import Mathlib

/-!
Verification of the credential-rotation and backoff orchestration loop of
`src/image_generator.py`.

The embedding is shallow: the external API is represented by the outcome each
call would have (a response made of text/image parts, or a raised exception
with its message), and the Python functions `test_api_key`,
`generate_with_key`, `save_progress` and the per-key loop of `main` are
translated into pure Lean functions over those outcome traces.  Time-unit
sleeps are recorded in a `delays` list rather than performed.
-/

namespace ImageGen

/-- Lowercased character list of a string; models Python `str.lower()` as
applied to error messages before keyword matching (lines 63 and 124). -/
def lowerChars (s : String) : List Char := s.data.map Char.toLower

/-- Substring containment on character lists; models the Python membership
test `keyword in error_msg`. -/
def listContains (hay kw : List Char) : Bool :=
  (List.range (hay.length + 1)).any (fun k => kw.isPrefixOf (hay.drop k))

/-- Keyword list used for quota/rate-limit detection at lines 65 and 129 of
`image_generator.py`. -/
def quotaKeywords : List String := ["quota", "limit", "rate", "exceeded", "429"]

/-- Failure classification of `image_generator.py` (lines 65 and 129): an
error message is a quota/rate-limit signal when its lowercased text contains
one of the keywords; every other error is treated as transient. -/
def isQuotaError (msg : String) : Bool :=
  quotaKeywords.any (fun kw => listContains (lowerChars msg) kw.data)

/-- One part of a model response (lines 102-105): either descriptive text or
an inline image. -/
inductive Part where
  | text (s : String)
  | image
deriving DecidableEq

/-- Outcome of one `generate_content` call: a response with its list of
parts, or a raised exception carrying a message. -/
inductive CallResult where
  | ok (parts : List Part)
  | exc (msg : String)
deriving DecidableEq

/-- Probe `test_api_key` (lines 50-69): returns `false` only when the call
raised an error matching the quota keywords; success and every other error
yield `true`. -/
def test_api_key (r : CallResult) : Bool :=
  match r with
  | .ok _ => true
  | .exc msg => !(isQuotaError msg)

/-- Why the per-key generation loop ended early: a quota-classified
exception (line 131) or five consecutive errors (line 136). -/
inductive EndReason where
  | quota
  | consecutiveFailures
deriving DecidableEq

/-- Local state of `generate_with_key` (lines 73-76), plus the recorded
sleep durations and the break reason, if any. -/
structure GenState where
  images_generated : Nat
  consecutive_errors : Nat
  sleep_time : Nat
  requests_made : Nat
  delays : List Nat
  ended : Option EndReason
deriving DecidableEq

/-- Number of image parts in a response (the `inline_data` branch at
line 105); each one increments `images_generated`. -/
def countImages (parts : List Part) : Nat :=
  parts.countP (fun p => match p with | .image => true | .text _ => false)

/-- Sleep duration at the top of a loop iteration, after the progressive
escalation of lines 83-84: `+7` when `requests_made` is a positive multiple
of 15. -/
def bumpSleep (s : GenState) : Nat :=
  if 0 < s.requests_made ∧ s.requests_made % 15 = 0 then s.sleep_time + 7 else s.sleep_time

/-- One iteration of the `while` body of `generate_with_key` (lines 81-139):
escalate and record the sleep, make the call, then either count the images of
a response, or classify the raised error, breaking on a quota keyword match
or on the fifth consecutive error and otherwise sleeping
`min 60 (sleep_time * 2)` extra. -/
def genIter (s : GenState) (r : CallResult) : GenState :=
  let st := bumpSleep s
  let s1 : GenState := { s with sleep_time := st, delays := s.delays ++ [st] }
  match r with
  | .ok parts =>
      let imgs := countImages parts
      { s1 with requests_made := s1.requests_made + 1,
                images_generated := s1.images_generated + imgs,
                consecutive_errors := if 0 < imgs then 0 else s1.consecutive_errors }
  | .exc msg =>
      let s2 : GenState := { s1 with consecutive_errors := s1.consecutive_errors + 1 }
      if isQuotaError msg then { s2 with ended := some .quota }
      else if 5 ≤ s2.consecutive_errors then { s2 with ended := some .consecutiveFailures }
      else { s2 with delays := s2.delays ++ [min 60 (s2.sleep_time * 2)] }

/-- The `while images_generated < max_images_per_key` loop of
`generate_with_key`, driven by the trace of call outcomes. -/
def genLoop (maxImages : Nat) : List CallResult → GenState → GenState
  | [], s => s
  | r :: rs, s =>
      if s.images_generated < maxImages then
        let s1 := genIter s r
        if s1.ended.isSome then s1 else genLoop maxImages rs s1
      else s

/-- Initial local state of `generate_with_key` (lines 73-76): zero counters
and a base sleep of 8. -/
def initGen : GenState :=
  { images_generated := 0, consecutive_errors := 0, sleep_time := 8,
    requests_made := 0, delays := [], ended := none }

/-- Full run of `generate_with_key` with the default
`max_images_per_key = 500`, as invoked from `main` (line 188). -/
def generate_with_key (calls : List CallResult) : GenState :=
  genLoop 500 calls initGen

/-- Shorthand for a successful call whose response holds exactly one
image. -/
def okS : CallResult := .ok [.image]

/-- The progress checkpoint written by `save_progress` (lines 21-32) and
read back by `load_progress` (lines 34-48); the timestamp field is not
modelled. -/
structure Progress where
  current_key_index : Nat
  total_images_generated : Nat
  images_per_key : List (String × Nat)
  exhausted_keys : List String
deriving DecidableEq

/-- Defaults returned by `load_progress` when no checkpoint exists
(lines 43-48). -/
def defaultProgress : Progress :=
  { current_key_index := 0, total_images_generated := 0,
    images_per_key := [], exhausted_keys := [] }

/-- Behaviour of the environment for one key inside the `try` block of
`main` (lines 177-210): either some step raises an unexpected exception
(caught at line 207), or the probe call has a given outcome and the
generation loop sees a given trace of call outcomes. -/
inductive KeyBehavior where
  | fatal (msg : String)
  | normal (probeResult : CallResult) (calls : List CallResult)
deriving DecidableEq

/-- Position-derived identifier of the key at index `i`:
`key_{i+1}` (line 170). -/
def keyName (i : Nat) : String := "key_" ++ toString (i + 1)

/-- Python dict assignment `d[k] = v` on an insertion-ordered association
list: overwrite in place if the key is present, else append. -/
def assocSet : List (String × Nat) → String → Nat → List (String × Nat)
  | [], k, v => [(k, v)]
  | (k', v') :: rest, k, v =>
      if k' = k then (k, v) :: rest else (k', v') :: assocSet rest k v

/-- Python `d.get(k, dflt)` on an association list. -/
def assocGetD : List (String × Nat) → String → Nat → Nat
  | [], _, d => d
  | (k', v') :: rest, k, d => if k' = k then v' else assocGetD rest k d

/-- Sum of the per-key counts, i.e. `sum(images_per_key.values())`. -/
def sumCounts (m : List (String × Nat)) : Nat := (m.map Prod.snd).sum

/-- State of `main` over its key loop: the in-memory progress dict and the
sequence of snapshots handed to `save_progress`, in order. -/
structure MainState where
  progress : Progress
  saves : List Progress
deriving DecidableEq

/-- Body of the `for i in range(...)` loop of `main` (lines 168-210) for the
key at index `i`: skip a key already listed in `exhausted_keys`; on an
unexpected exception append the raw key to `exhausted_keys` and continue; on
a failed probe append the raw key and continue; otherwise run
`generate_with_key`, add its count to the total, overwrite the per-key entry
under `key_{i+1}`, append the raw key when fewer than 50 images were
produced, and call `save_progress`. -/
def processKey (st : MainState) (i : Nat) (key : String) (b : KeyBehavior) : MainState :=
  if key ∈ st.progress.exhausted_keys then st
  else
    match b with
    | .fatal _ =>
        { st with progress := { st.progress with
            exhausted_keys := st.progress.exhausted_keys ++ [key] } }
    | .normal probeResult calls =>
        if test_api_key probeResult = false then
          { st with progress := { st.progress with
              exhausted_keys := st.progress.exhausted_keys ++ [key] } }
        else
          let g := (generate_with_key calls).images_generated
          let p := st.progress
          let p1 : Progress :=
            { current_key_index := i,
              total_images_generated := p.total_images_generated + g,
              images_per_key := assocSet p.images_per_key (keyName i) g,
              exhausted_keys :=
                if g < 50 then p.exhausted_keys ++ [key] else p.exhausted_keys }
          { progress := p1, saves := st.saves ++ [p1] }

/-- The key loop of `main`, folding `processKey` over the (index, key,
behaviour) triples still to process. -/
def mainLoop : List (Nat × String × KeyBehavior) → MainState → MainState
  | [], st => st
  | (i, key, b) :: rest, st => mainLoop rest (processKey st i key b)

/-- Indexed key list, pairing each configured key with its position. -/
def enumKeys (keys : List (String × KeyBehavior)) : List (Nat × String × KeyBehavior) :=
  (List.range keys.length).zip keys

/-- The key-processing phase of `main` starting from a loaded checkpoint:
`for i in range(progress["current_key_index"], len(all_keys))`
(line 168). -/
def runMain (keys : List (String × KeyBehavior)) (init : Progress) : MainState :=
  mainLoop ((enumKeys keys).drop init.current_key_index) { progress := init, saves := [] }


/-- Number of images carried by one call outcome: the image parts of a
response, none for a raised error. -/
def respImages (r : CallResult) : Nat :=
  match r with
  | .ok parts => countImages parts
  | .exc _ => 0

/-- Classifier as claim C6 words it: markers quota, rate, limit, throttle,
or 429, matched case-insensitively as substrings of the error text.  Stated
for comparison with `isQuotaError`, the classifier the code implements. -/
def claimQuotaKeywords : List String := ["quota", "rate", "limit", "throttle", "429"]

/-- Predicate of the C6 claim, applied to an error message: some claimed
marker occurs in the lowercased text. -/
def claimIsQuota (msg : String) : Bool :=
  claimQuotaKeywords.any (fun kw => listContains (lowerChars msg) kw.data)

theorem genIter_requests_exc (s : GenState) (msg : String) :
    (genIter s (.exc msg)).requests_made = s.requests_made := by
  unfold genIter
  dsimp only
  split
  · rfl
  · split
    · rfl
    · rfl

theorem genIter_requests_ok (s : GenState) (parts : List Part) :
    (genIter s (.ok parts)).requests_made = s.requests_made + 1 := rfl

theorem genIter_images (s : GenState) (r : CallResult) :
    (genIter s r).images_generated = s.images_generated + respImages r := by
  cases r with
  | ok parts => rfl
  | exc msg =>
      unfold genIter respImages
      dsimp only
      split
      · rfl
      · split
        · rfl
        · rfl

theorem genLoop_images_le (maxImages : Nat) (calls : List CallResult) (s : GenState)
    (bound : Nat) (hb : ∀ r ∈ calls, respImages r ≤ bound) :
    (genLoop maxImages calls s).images_generated
      ≤ max s.images_generated (maxImages - 1 + bound) := by
  induction calls generalizing s with
  | nil => simp [genLoop]
  | cons r rs ih =>
      rw [genLoop]
      split
      · have hr : respImages r ≤ bound := hb r (List.mem_cons_self r rs)
        have h1 : (genIter s r).images_generated ≤ maxImages - 1 + bound := by
          rw [genIter_images]
          omega
        dsimp only
        split
        · exact le_max_of_le_right h1
        · have := ih (genIter s r) (fun x hx => hb x (List.mem_cons_of_mem r hx))
          omega
      · exact le_max_left _ _

theorem bumpSleep_schedule (j : Nat) (ds : List Nat) :
    bumpSleep { images_generated := j, consecutive_errors := 0,
                sleep_time := 8 + 7 * ((j - 1) / 15), requests_made := j,
                delays := ds, ended := none }
      = 8 + 7 * (j / 15) := by
  unfold bumpSleep
  dsimp only
  split
  · omega
  · omega

theorem genIter_okS_schedule (j : Nat) (ds : List Nat) :
    genIter { images_generated := j, consecutive_errors := 0,
              sleep_time := 8 + 7 * ((j - 1) / 15), requests_made := j,
              delays := ds, ended := none } okS
    = { images_generated := j + 1, consecutive_errors := 0,
        sleep_time := 8 + 7 * (j / 15), requests_made := j + 1,
        delays := ds ++ [8 + 7 * (j / 15)], ended := none } := by
  unfold genIter okS
  dsimp only
  rw [bumpSleep_schedule]
  rfl

theorem genLoop_replicate_okS (n : Nat) : ∀ (j : Nat), j + n ≤ 500 → ∀ (ds : List Nat),
    genLoop 500 (List.replicate n okS)
      { images_generated := j, consecutive_errors := 0,
        sleep_time := 8 + 7 * ((j - 1) / 15), requests_made := j,
        delays := ds, ended := none }
    = { images_generated := j + n, consecutive_errors := 0,
        sleep_time := 8 + 7 * ((j + n - 1) / 15), requests_made := j + n,
        delays := ds ++ (List.range n).map (fun t => 8 + 7 * ((j + t) / 15)),
        ended := none } := by
  induction n with
  | zero => intro j h ds; simp [genLoop]
  | succ n ih =>
      intro j h ds
      rw [List.replicate_succ, genLoop]
      rw [if_pos (by dsimp only; omega)]
      dsimp only
      rw [genIter_okS_schedule]
      rw [show Option.isSome (none : Option EndReason) = false from rfl]
      simp only [Bool.false_eq_true, if_false]
      have hfun : (fun t => 8 + 7 * ((j + t) / 15)) ∘ Nat.succ
          = (fun t => 8 + 7 * ((j + 1 + t) / 15)) := by
        funext t
        simp only [Function.comp_apply]
        congr 1
        omega
      have hmap : (List.range (n + 1)).map (fun t => 8 + 7 * ((j + t) / 15))
          = (8 + 7 * (j / 15)) :: (List.range n).map (fun t => 8 + 7 * ((j + 1 + t) / 15)) := by
        rw [List.range_succ_eq_map, List.map_cons, List.map_map, hfun]
        norm_num
      rw [show (8 + 7 * (j / 15)) = (8 + 7 * (((j + 1) - 1) / 15)) from by omega]
      rw [ih (j + 1) (by omega) (ds ++ [8 + 7 * (((j + 1) - 1) / 15)])]
      rw [hmap]
      rw [show j + (n + 1) = (j + 1) + n from by omega]
      simp only [Nat.add_sub_cancel, List.append_assoc, List.singleton_append]


/-- Claim C6 counterexample: an error text containing `throttle` is, per the
claim, QuotaExhausted, but the code classifies it as transient because its
keyword list has no `throttle`; conversely `exceeded` is in the code list
but not in the claimed markers. -/
theorem C6_counterexample :
    claimIsQuota "Request throttled" = true ∧
    isQuotaError "Request throttled" = false ∧
    claimIsQuota "Daily cap exceeded" = false ∧
    isQuotaError "Daily cap exceeded" = true := by decide

/-- Claim C6 amended: classification is case-insensitive substring matching
on the error text, but the marker set is quota, limit, rate, exceeded, 429
(no throttle); a message matches exactly when one of those keywords occurs
in its lowercased text, and any two messages agreeing after lowercasing are
classified alike. -/
theorem C6_amended :
    (∀ m1 m2 : String, lowerChars m1 = lowerChars m2 →
      isQuotaError m1 = isQuotaError m2) ∧
    (∀ msg : String, isQuotaError msg = true ↔
      ∃ kw ∈ quotaKeywords, listContains (lowerChars msg) kw.data = true) := by
  constructor
  · intro m1 m2 h
    unfold isQuotaError
    rw [h]
  · intro msg
    unfold isQuotaError
    rw [List.any_eq_true]

/-- Witness for C6: the amended theorem applied to two concrete casings of
the same message. -/
theorem C6_witness : isQuotaError "QUOTA EXCEEDED" = isQuotaError "quota exceeded" := by
  exact C6_amended.1 "QUOTA EXCEEDED" "quota exceeded" (by decide)

/-- Claim C3 counterexample: with the base delay at its floor of 8, a
transient failure is followed by an extra sleep of 16 time-units, whereas
the claim (larger of base times 2 and the 60 cap) would require 60. -/
theorem C3_counterexample :
    (generate_with_key [CallResult.exc "boom"]).delays = [8, 16] ∧
    Nat.max (8 * 2) 60 = 60 ∧ (16 : Nat) ≠ 60 := by decide

/-- Claim C3 amended: after a Transient failure below the consecutive-error
ceiling, the extra delay before the next attempt is the smaller of (current
base delay times 2) and the hard cap 60, applied once; a QuotaExhausted
failure ends the run immediately with no extra delay at all. -/
theorem C3_amended (s : GenState) (msg : String) :
    (isQuotaError msg = false → s.consecutive_errors + 1 < 5 →
      (genIter s (.exc msg)).delays
        = s.delays ++ [bumpSleep s, min 60 (bumpSleep s * 2)]) ∧
    (isQuotaError msg = true →
      (genIter s (.exc msg)).delays = s.delays ++ [bumpSleep s] ∧
      (genIter s (.exc msg)).ended = some EndReason.quota) := by
  constructor
  · intro hq hc
    unfold genIter
    dsimp only
    rw [hq]
    simp only [Bool.false_eq_true, if_false]
    rw [if_neg (by omega : ¬ 5 ≤ s.consecutive_errors + 1)]
    simp [List.append_assoc]
  · intro hq
    unfold genIter
    dsimp only
    rw [hq]
    simp

/-- Witness for C3: the amended theorem at the initial state and a
non-matching error message gives the concrete delay list [8, 16]. -/
theorem C3_witness : (genIter initGen (CallResult.exc "boom")).delays = [8, 16] := by
  rw [(C3_amended initGen "boom").1 (by decide) (by decide)]
  decide

/-- Claim C5 counterexample: a failed call is not counted by
`requests_made`.  After one raising call and 15 successful ones (16 requests
under the counting of the claim), the counter reads 15, and the sleep before
the 16th call was still the floor 8, not 8 + 7. -/
theorem C5_counterexample :
    ([CallResult.exc "boom"] ++ List.replicate 15 okS).length = 16 ∧
    (generate_with_key ([CallResult.exc "boom"] ++ List.replicate 15 okS)).requests_made = 15 ∧
    (generate_with_key ([CallResult.exc "boom"] ++ List.replicate 15 okS)).delays.getLast?
      = some 8 ∧ (8 : Nat) ≠ 8 + 7 := by decide

/-- Claim C5 amended: `requests_made` counts only calls that returned
without raising (raising calls leave it unchanged); for a run of successful
single-image calls the recorded sleep before call `t + 1` is
`8 + 7 * (t / 15)`, so the base delay increases by exactly 7 at each
multiple of 15 such requests and only once per multiple. -/
theorem C5_amended :
    (∀ (s : GenState) (msg : String),
      (genIter s (.exc msg)).requests_made = s.requests_made) ∧
    (∀ (s : GenState) (parts : List Part),
      (genIter s (.ok parts)).requests_made = s.requests_made + 1) ∧
    (∀ n : Nat, n ≤ 500 →
      (generate_with_key (List.replicate n okS)).delays
        = (List.range n).map (fun t => 8 + 7 * (t / 15))) := by
  refine ⟨genIter_requests_exc, genIter_requests_ok, ?_⟩
  intro n hn
  unfold generate_with_key initGen
  have h := genLoop_replicate_okS n 0 (by omega) []
  norm_num at h
  rw [h]

/-- Witness for C5: the amended schedule at 31 successful calls; the delay
steps from 8 to 15 before call 16 and to 22 before call 31. -/
theorem C5_witness :
    (generate_with_key (List.replicate 31 okS)).delays
      = [8, 8, 8, 8, 8, 8, 8, 8, 8, 8, 8, 8, 8, 8, 8,
         15, 15, 15, 15, 15, 15, 15, 15, 15, 15, 15, 15, 15, 15, 15, 22] := by
  rw [C5_amended.2.2 31 (by decide)]
  decide

set_option maxRecDepth 4000 in
/-- Claim C9 counterexample: after 499 single-image responses, a response
carrying two images pushes the per-key return value to 501, exceeding the
500 ceiling. -/
theorem C9_counterexample :
    (generate_with_key (List.replicate 499 okS
        ++ [CallResult.ok [Part.image, Part.image]])).images_generated = 501 ∧
    ¬ (generate_with_key (List.replicate 499 okS
        ++ [CallResult.ok [Part.image, Part.image]])).images_generated ≤ 500 := by decide

/-- Claim C9 amended: the per-key count can overrun the 500 ceiling when a
single response yields several images; it is bounded by 499 plus the largest
per-response image count, and stays at or below 500 whenever every response
yields at most one image. -/
theorem C9_amended (calls : List CallResult) :
    (∀ bound : Nat, (∀ r ∈ calls, respImages r ≤ bound) →
      (generate_with_key calls).images_generated ≤ 499 + bound) ∧
    ((∀ r ∈ calls, respImages r ≤ 1) →
      (generate_with_key calls).images_generated ≤ 500) := by
  have key : ∀ bound : Nat, (∀ r ∈ calls, respImages r ≤ bound) →
      (generate_with_key calls).images_generated ≤ 499 + bound := by
    intro bound hb
    have h := genLoop_images_le 500 calls initGen bound hb
    simpa [generate_with_key, initGen] using h
  exact ⟨key, fun h => key 1 h⟩

/-- Witness for C9: the amended bound applied to three single-image calls. -/
theorem C9_witness :
    (generate_with_key (List.replicate 3 okS)).images_generated ≤ 500 :=
  (C9_amended (List.replicate 3 okS)).2 (by decide)


theorem sumCounts_assocSet (m : List (String × Nat)) (k : String) (v : Nat) :
    sumCounts (assocSet m k v) + assocGetD m k 0 = sumCounts m + v := by
  induction m with
  | nil => simp [assocSet, assocGetD, sumCounts]
  | cons kv rest ih =>
      obtain ⟨k', v'⟩ := kv
      by_cases h : k' = k
      · simp only [assocSet, assocGetD, sumCounts, h, if_pos, List.map_cons, List.sum_cons]
        omega
      · simp only [assocSet, assocGetD, sumCounts, h, if_neg, List.map_cons, List.sum_cons,
          not_false_iff, if_false]
        simp only [sumCounts] at ih
        omega

theorem processKey_saves_extend (st : MainState) (i : Nat) (key : String) (b : KeyBehavior) :
    st.saves <+: (processKey st i key b).saves := by
  by_cases hk : key ∈ st.progress.exhausted_keys
  · simp [processKey, hk]
  · cases b with
    | fatal msg => simp [processKey, hk]
    | normal probeR calls =>
        by_cases hp : test_api_key probeR = false
        · simp [processKey, hk, hp]
        · simp only [processKey, hk, hp, if_neg, if_false, not_false_iff]
          exact List.prefix_append _ _

theorem mainLoop_saves_extend (L : List (Nat × String × KeyBehavior)) (st : MainState) :
    st.saves <+: (mainLoop L st).saves := by
  induction L generalizing st with
  | nil => exact List.prefix_rfl
  | cons e rest ih =>
      obtain ⟨i, key, b⟩ := e
      rw [mainLoop]
      exact (processKey_saves_extend st i key b).trans (ih (processKey st i key b))

/-- Claim C1 counterexample: a key whose run ends on a quota-classified
error after 50 images is not added to the exhausted set, because the code
marks a key exhausted only when its run produced fewer than 50 images. -/
theorem C1_counterexample :
    (generate_with_key (List.replicate 50 okS ++ [CallResult.exc "quota exceeded"])).ended
      = some EndReason.quota ∧
    (runMain [("sk-alpha", KeyBehavior.normal (CallResult.ok [])
        (List.replicate 50 okS ++ [CallResult.exc "quota exceeded"]))]
      defaultProgress).progress.exhausted_keys = [] := by decide

/-- Claim C1 amended: when a production run ends because of a
QuotaExhausted-classified error, the credential is added to the exhausted
set if and only if the run produced fewer than 50 images; a quota-ended run
with 50 or more images leaves the exhausted set unchanged. -/
theorem C1_amended (st : MainState) (i : Nat) (key : String)
    (probeR : CallResult) (calls : List CallResult)
    (hk : key ∉ st.progress.exhausted_keys)
    (hp : test_api_key probeR = true)
    (hq : (generate_with_key calls).ended = some EndReason.quota) :
    (key ∈ (processKey st i key (KeyBehavior.normal probeR calls)).progress.exhausted_keys
      ↔ (generate_with_key calls).images_generated < 50) := by
  simp only [processKey, hk, hp, if_neg, if_false, not_false_iff]
  by_cases hg : (generate_with_key calls).images_generated < 50
  · simp [hg]
  · simp [hg, hk]

/-- Witness for C1: a key ending on a quota error after only 10 images is
marked exhausted. -/
theorem C1_witness :
    "sk-a" ∈ (processKey { progress := defaultProgress, saves := [] } 0 "sk-a"
      (KeyBehavior.normal (CallResult.ok [])
        (List.replicate 10 okS ++ [CallResult.exc "quota hit"]))).progress.exhausted_keys :=
  (C1_amended { progress := defaultProgress, saves := [] } 0 "sk-a"
      (CallResult.ok []) (List.replicate 10 okS ++ [CallResult.exc "quota hit"])
      (by decide) (by decide) (by decide)).mpr (by decide)

/-- Claim C2 counterexample: resuming from a checkpoint in which key_1
already has 100 recorded images and re-running that key for 60 more images
writes a checkpoint whose total is 160 but whose per-key counts sum to 60,
because the per-key entry is overwritten while the total accumulates. -/
theorem C2_counterexample :
    (runMain [("K1", KeyBehavior.normal (CallResult.ok []) (List.replicate 60 okS))]
        { current_key_index := 0, total_images_generated := 100,
          images_per_key := [("key_1", 100)], exhausted_keys := [] }).saves
      = [{ current_key_index := 0, total_images_generated := 160,
           images_per_key := [("key_1", 60)], exhausted_keys := [] }] ∧
    ¬ (sumCounts [("key_1", 60)] = 160) := by decide

/-- Claim C2 amended: at the checkpoint written after the run of the
credential at index i, the total grows by the run count g and the per-key
map gets the entry (key_{i+1}, g) by overwrite, so the sum of per-key counts
plus the previously recorded count for key_{i+1} equals the previous sum
plus g; hence the sum invariant holds at this write whenever key_{i+1} had
no previously recorded count (in particular on any first, non-resumed pass),
and breaks by the old count when a recorded credential is re-run. -/
theorem C2_amended (st : MainState) (i : Nat) (key : String)
    (probeR : CallResult) (calls : List CallResult)
    (hk : key ∉ st.progress.exhausted_keys)
    (hp : test_api_key probeR = true) :
    (processKey st i key (KeyBehavior.normal probeR calls)).saves
      = st.saves ++ [(processKey st i key (KeyBehavior.normal probeR calls)).progress] ∧
    (processKey st i key (KeyBehavior.normal probeR calls)).progress.total_images_generated
      = st.progress.total_images_generated + (generate_with_key calls).images_generated ∧
    sumCounts (processKey st i key (KeyBehavior.normal probeR calls)).progress.images_per_key
        + assocGetD st.progress.images_per_key (keyName i) 0
      = sumCounts st.progress.images_per_key + (generate_with_key calls).images_generated ∧
    (assocGetD st.progress.images_per_key (keyName i) 0 = 0 →
      sumCounts st.progress.images_per_key = st.progress.total_images_generated →
      sumCounts (processKey st i key (KeyBehavior.normal probeR calls)).progress.images_per_key
        = (processKey st i key
            (KeyBehavior.normal probeR calls)).progress.total_images_generated) := by
  have hred : processKey st i key (KeyBehavior.normal probeR calls)
      = { progress :=
            { current_key_index := i,
              total_images_generated := st.progress.total_images_generated
                + (generate_with_key calls).images_generated,
              images_per_key := assocSet st.progress.images_per_key (keyName i)
                (generate_with_key calls).images_generated,
              exhausted_keys :=
                if (generate_with_key calls).images_generated < 50
                then st.progress.exhausted_keys ++ [key]
                else st.progress.exhausted_keys },
          saves := st.saves ++
            [{ current_key_index := i,
               total_images_generated := st.progress.total_images_generated
                 + (generate_with_key calls).images_generated,
               images_per_key := assocSet st.progress.images_per_key (keyName i)
                 (generate_with_key calls).images_generated,
               exhausted_keys :=
                 if (generate_with_key calls).images_generated < 50
                 then st.progress.exhausted_keys ++ [key]
                 else st.progress.exhausted_keys }] } := by
    simp [processKey, hk, hp]
  rw [hred]
  refine ⟨rfl, rfl, sumCounts_assocSet _ _ _, ?_⟩
  intro h0 hsum
  have h3 := sumCounts_assocSet st.progress.images_per_key (keyName i)
    (generate_with_key calls).images_generated
  dsimp only
  omega

/-- Witness for C2: on a first pass from the empty checkpoint the sum
invariant holds at the write. -/
theorem C2_witness :
    sumCounts (processKey { progress := defaultProgress, saves := [] } 0 "sk-a"
        (KeyBehavior.normal (CallResult.ok []) (List.replicate 60 okS))).progress.images_per_key
      = (processKey { progress := defaultProgress, saves := [] } 0 "sk-a"
        (KeyBehavior.normal (CallResult.ok [])
          (List.replicate 60 okS))).progress.total_images_generated :=
  (C2_amended { progress := defaultProgress, saves := [] } 0 "sk-a"
      (CallResult.ok []) (List.replicate 60 okS)
      (by decide) (by decide)).2.2.2 (by decide) (by decide)

/-- Claim C4 counterexample: a key whose probe fails is recorded in the
persisted exhausted set by its raw secret value (here sk-alpha), not by its
position-derived identifier key_1. -/
theorem C4_counterexample :
    (runMain [("sk-alpha", KeyBehavior.normal (CallResult.exc "quota hit") []),
              ("sk-beta", KeyBehavior.normal (CallResult.ok []) (List.replicate 60 okS))]
        defaultProgress).saves
      = [{ current_key_index := 1, total_images_generated := 60,
           images_per_key := [("key_2", 60)], exhausted_keys := ["sk-alpha"] }] ∧
    keyName 0 = "key_1" ∧ "sk-alpha" ≠ keyName 0 := by decide

/-- Claim C4 amended: the per-key counts map is keyed by the
position-derived identifier key_{i+1}, but the exhausted set stores the raw
credential secret itself, both on a failed probe and on a low-yield run. -/
theorem C4_amended (st : MainState) (i : Nat) (key : String)
    (probeR : CallResult) (calls : List CallResult)
    (hk : key ∉ st.progress.exhausted_keys) :
    (test_api_key probeR = false →
      (processKey st i key (KeyBehavior.normal probeR calls)).progress.exhausted_keys
        = st.progress.exhausted_keys ++ [key] ∧
      (processKey st i key (KeyBehavior.normal probeR calls)).saves = st.saves) ∧
    (test_api_key probeR = true →
      (processKey st i key (KeyBehavior.normal probeR calls)).progress.images_per_key
        = assocSet st.progress.images_per_key (keyName i)
            (generate_with_key calls).images_generated ∧
      (processKey st i key (KeyBehavior.normal probeR calls)).progress.exhausted_keys
        = (if (generate_with_key calls).images_generated < 50
           then st.progress.exhausted_keys ++ [key]
           else st.progress.exhausted_keys)) := by
  constructor
  · intro hp
    simp [processKey, hk, hp]
  · intro hp
    simp [processKey, hk, hp]

/-- Witness for C4: after a failed probe the raw secret is the last element
of the exhausted set. -/
theorem C4_witness :
    (processKey { progress := defaultProgress, saves := [] } 0 "sk-alpha"
        (KeyBehavior.normal (CallResult.exc "quota hit") [])).progress.exhausted_keys
      = [] ++ ["sk-alpha"] :=
  ((C4_amended { progress := defaultProgress, saves := [] } 0 "sk-alpha"
      (CallResult.exc "quota hit") [] (by decide)).1 (by decide)).1

/-- Claim C7 counterexample: an unexpected exception while processing the
first key neither persists the progress state (no save is written) nor
aborts the run (the second key is still probed and run). -/
theorem C7_counterexample :
    (runMain [("sk-a", KeyBehavior.fatal "boom")] defaultProgress).saves = [] ∧
    (runMain [("sk-a", KeyBehavior.fatal "boom"),
              ("sk-b", KeyBehavior.normal (CallResult.ok []) (List.replicate 60 okS))]
        defaultProgress).progress.images_per_key = [("key_2", 60)] := by decide

/-- Claim C7 amended: an unexpected error raised while processing one
credential appends that credential to the in-memory exhausted set, writes no
checkpoint at that point, and the loop continues with the remaining
credentials instead of aborting the run. -/
theorem C7_amended (st : MainState) (i : Nat) (key : String) (msg : String)
    (rest : List (Nat × String × KeyBehavior))
    (hk : key ∉ st.progress.exhausted_keys) :
    processKey st i key (KeyBehavior.fatal msg)
      = { st with progress := { st.progress with
            exhausted_keys := st.progress.exhausted_keys ++ [key] } } ∧
    mainLoop ((i, key, KeyBehavior.fatal msg) :: rest) st
      = mainLoop rest (processKey st i key (KeyBehavior.fatal msg)) := by
  refine ⟨?_, rfl⟩
  simp [processKey, hk]

/-- Witness for C7: the fatal branch at a concrete state. -/
theorem C7_witness :
    processKey { progress := defaultProgress, saves := [] } 0 "sk-a"
        (KeyBehavior.fatal "boom")
      = { progress := { defaultProgress with exhausted_keys := [] ++ ["sk-a"] },
          saves := [] } :=
  (C7_amended { progress := defaultProgress, saves := [] } 0 "sk-a" "boom" []
    (by decide)).1

/-- Claim C8 counterexample: a key whose probe returns false is marked
exhausted in memory, but no checkpoint write happens before the loop moves
on (the save list stays empty). -/
theorem C8_counterexample :
    (runMain [("sk-a", KeyBehavior.normal (CallResult.exc "quota hit") [])] defaultProgress)
      = { progress := { current_key_index := 0, total_images_generated := 0,
                        images_per_key := [], exhausted_keys := ["sk-a"] },
          saves := [] } := by decide

/-- Claim C8 amended: on a failed probe the credential is appended to the
in-memory exhausted set and the loop moves to the next credential, but the
updated state is not persisted at that point; it reaches the checkpoint only
through the save following some later successful credential run. -/
theorem C8_amended (st : MainState) (i : Nat) (key : String)
    (probeR : CallResult) (calls : List CallResult)
    (hk : key ∉ st.progress.exhausted_keys)
    (hp : test_api_key probeR = false) :
    processKey st i key (KeyBehavior.normal probeR calls)
      = { st with progress := { st.progress with
            exhausted_keys := st.progress.exhausted_keys ++ [key] } } := by
  simp [processKey, hk, hp]

/-- Witness for C8: the failed-probe branch at a concrete state. -/
theorem C8_witness :
    processKey { progress := defaultProgress, saves := [] } 0 "sk-a"
        (KeyBehavior.normal (CallResult.exc "quota hit") [])
      = { progress := { defaultProgress with exhausted_keys := [] ++ ["sk-a"] },
          saves := [] } :=
  C8_amended { progress := defaultProgress, saves := [] } 0 "sk-a"
    (CallResult.exc "quota hit") [] (by decide) (by decide)

/-- Claim C10: the checkpoint written after the run of the credential at
index i records current_key_index = i itself, and a process restarted from a
checkpoint with current_key_index = i starts its scan at that same position:
when that key is not in the exhausted set and its probe succeeds, the first
checkpoint the restarted process writes is again for index i, with the
per-key entry key_{i+1} overwritten by the new run count. -/
theorem C10_theorem (keys : List (String × KeyBehavior)) (init : Progress)
    (key : String) (probeR : CallResult) (calls : List CallResult)
    (rest : List (Nat × String × KeyBehavior))
    (hdrop : (enumKeys keys).drop init.current_key_index
        = (init.current_key_index, key, KeyBehavior.normal probeR calls) :: rest)
    (hk : key ∉ init.exhausted_keys)
    (hp : test_api_key probeR = true) :
    (runMain keys init).saves.head? = some
      { current_key_index := init.current_key_index,
        total_images_generated :=
          init.total_images_generated + (generate_with_key calls).images_generated,
        images_per_key := assocSet init.images_per_key
          (keyName init.current_key_index) (generate_with_key calls).images_generated,
        exhausted_keys :=
          if (generate_with_key calls).images_generated < 50
          then init.exhausted_keys ++ [key] else init.exhausted_keys } := by
  unfold runMain
  rw [hdrop, mainLoop]
  obtain ⟨t, ht⟩ := mainLoop_saves_extend rest
    (processKey { progress := init, saves := [] } init.current_key_index key
      (KeyBehavior.normal probeR calls))
  rw [← ht]
  have hsv : (processKey { progress := init, saves := [] } init.current_key_index key
      (KeyBehavior.normal probeR calls)).saves
      = [{ current_key_index := init.current_key_index,
           total_images_generated :=
             init.total_images_generated + (generate_with_key calls).images_generated,
           images_per_key := assocSet init.images_per_key
             (keyName init.current_key_index) (generate_with_key calls).images_generated,
           exhausted_keys :=
             if (generate_with_key calls).images_generated < 50
             then init.exhausted_keys ++ [key] else init.exhausted_keys }] := by
    simp [processKey, hk, hp]
  rw [hsv]
  rfl

/-- Witness for C10: restarting from the checkpoint written for key index 0
re-runs that key and writes a checkpoint for index 0 again, with the per-key
entry overwritten (total grows to 120, per-key entry stays 60). -/
theorem C10_witness :
    (runMain [("sk-a", KeyBehavior.normal (CallResult.ok []) (List.replicate 60 okS))]
        { current_key_index := 0, total_images_generated := 60,
          images_per_key := [("key_1", 60)], exhausted_keys := [] }).saves.head?
      = some { current_key_index := 0, total_images_generated := 120,
               images_per_key := [("key_1", 60)], exhausted_keys := [] } := by
  rw [C10_theorem [("sk-a", KeyBehavior.normal (CallResult.ok []) (List.replicate 60 okS))]
    { current_key_index := 0, total_images_generated := 60,
      images_per_key := [("key_1", 60)], exhausted_keys := [] }
    "sk-a" (CallResult.ok []) (List.replicate 60 okS) []
    (by decide) (by decide) (by decide)]
  decide

end ImageGen
